import Mathlib

/-!
Verification of the Data Quality Inspector of `day_24_data_quality.py`.

The source file builds one fixed pandas DataFrame (`problematic_data`) and runs a
sequence of detection scans over it: missing values, value-kind enumeration,
duplicate rows, duplicate identifiers, formatting, constant/empty columns,
z-score outliers, age domain rules, and a structural schema comparison.

This file is a shallow embedding of that script.  Cells are a tagged variant
(Missing | Integer | Float | Text); Python floats are modelled as rationals
(every numeric literal in the script is exactly representable); pandas
operations are translated to list functions with the same semantics on the
relevant data.
-/

namespace DataQuality

/-- A cell value: the distinguished missing marker (None / NaN), a Python int,
a Python float (modelled as an exact rational), or a text string. -/
inductive Value where
  | missing : Value
  | int : ℤ → Value
  | float : ℚ → Value
  | text : String → Value
deriving DecidableEq, Repr

/-- The runtime kind of a cell value, as printed by the type-enumeration loop
of the source (`type(value)`): NoneType, int, float or str. -/
inductive VKind where
  | missingK : VKind
  | intK : VKind
  | floatK : VKind
  | textK : VKind
deriving DecidableEq, Repr

/-- Kind of a value (the embedding of Python `type(value)`). -/
def Value.kind : Value → VKind
  | .missing => .missingK
  | .int _ => .intK
  | .float _ => .floatK
  | .text _ => .textK

/-- Embeds `pd.isnull` on a single cell: true exactly on the missing marker. -/
def Value.isMissing : Value → Bool
  | .missing => true
  | _ => false

/-- Numeric reading of a cell: ints and floats carry a rational, missing and
text carry none.  Used to embed per-cell arithmetic of the source; in the
numeric columns of the script (`age` after its guard, `purchase_amount`)
every non-missing cell handed to arithmetic is an int or a float. -/
def toNumOpt : Value → Option ℚ
  | .missing => none
  | .int n => some (n : ℚ)
  | .float q => some q
  | .text _ => none

/-! ## The dataset `problematic_data` (source lines 75–107) -/

/-- Column `customer_id` of the source dictionary. -/
def customer_id : List Value :=
  [.int 1001, .int 1002, .int 1003, .int 1004, .int 1005,
   .int 1006, .int 1007, .int 1008, .int 1009, .int 1005]

/-- Column `customer_name` of the source dictionary. -/
def customer_name : List Value :=
  [.text "John Doe", .text "jane smith", .text "  Bob Wilson  ", .text "Alice Brown",
   .text "CHARLIE DAVIS", .text "Emma Watson", .text "Frank Miller", .text "Grace Lee",
   .text "Henry Ford", .text "Alice Brown"]

/-- Column `age` of the source dictionary: ints, one missing, one text cell. -/
def age : List Value :=
  [.int 25, .missing, .int 45, .int (-5), .int 67,
   .text "30", .int 22, .int 150, .int 33, .int 28]

/-- Column `email` of the source dictionary. -/
def email : List Value :=
  [.text "john@email.com", .text "jane.email.com", .missing, .text "alice@email.com",
   .text "charlie@email", .text "emma@email.com", .missing, .text "grace@email.com",
   .text "henry@email.com", .text "alice@email.com"]

/-- Column `purchase_amount` of the source dictionary (floats and missing). -/
def purchase_amount : List Value :=
  [.float 50, .float 75.5, .float 1000000, .missing, .float 120,
   .float 85.3, .float 45, .missing, .float 95, .float 120]

/-- Column `region`: completely empty. -/
def region : List Value := List.replicate 10 Value.missing

/-- Column `status`: constant value `active`. -/
def status : List Value := List.replicate 10 (Value.text "active")

/-- The DataFrame `df`, as a column-ordered table of named columns. -/
def df : List (String × List Value) :=
  [("customer_id", customer_id), ("customer_name", customer_name), ("age", age),
   ("email", email), ("purchase_amount", purchase_amount), ("region", region),
   ("status", status)]

/-- The rows of `df` (row-major view of the same data), used by the
duplicate-row scan (`df.duplicated`). -/
def tableRows : List (List Value) :=
  [[.int 1001, .text "John Doe", .int 25, .text "john@email.com", .float 50, .missing, .text "active"],
   [.int 1002, .text "jane smith", .missing, .text "jane.email.com", .float 75.5, .missing, .text "active"],
   [.int 1003, .text "  Bob Wilson  ", .int 45, .missing, .float 1000000, .missing, .text "active"],
   [.int 1004, .text "Alice Brown", .int (-5), .text "alice@email.com", .missing, .missing, .text "active"],
   [.int 1005, .text "CHARLIE DAVIS", .int 67, .text "charlie@email", .float 120, .missing, .text "active"],
   [.int 1006, .text "Emma Watson", .text "30", .text "emma@email.com", .float 85.3, .missing, .text "active"],
   [.int 1007, .text "Frank Miller", .int 22, .missing, .float 45, .missing, .text "active"],
   [.int 1008, .text "Grace Lee", .int 150, .text "grace@email.com", .missing, .missing, .text "active"],
   [.int 1009, .text "Henry Ford", .int 33, .text "henry@email.com", .float 95, .missing, .text "active"],
   [.int 1005, .text "Alice Brown", .int 28, .text "alice@email.com", .float 120, .missing, .text "active"]]

/-! ## Scan 4.1: missing values (source lines 153–168) -/

/-- Per-column missing count (`df.isnull().sum()`). -/
def missingCounts (t : List (String × List Value)) : List (String × ℕ) :=
  t.map fun c => (c.1, c.2.countP (·.isMissing))

/-! ## Scan 4.2: value-kind enumeration (source lines 247–248)

The source loops `for index, value in enumerate(df[age])` and prints each
cell index, its value and `type(value)` — every cell, missing included. -/

/-- Embeds the type-enumeration loop: one `(index, kind)` record per cell. -/
def typeEnumeration (col : List Value) : List (ℕ × VKind) :=
  col.enum.map fun p => (p.1, p.2.kind)

/-! ## Scan 4.3: duplicate rows (source line 330)

`df.duplicated(keep=first)`: a row is flagged exactly when an equal row occurs
earlier; the first occurrence is not flagged.  pandas compares missing markers
as equal for this purpose, as does equality of `Value`. -/

/-- Embeds `df.duplicated(keep=first)` on a row list. -/
def dupRowFlags (rows : List (List Value)) : List Bool :=
  rows.enum.map fun p => decide (p.2 ∈ rows.take p.1)

/-! ## Scan 4.4: duplicate identifiers (source line 415)

`df.duplicated(subset=[customer_id], keep=False)`: every row whose key value
occurs more than once in the column is flagged, first occurrence included. -/

/-- Embeds `duplicated(subset=key, keep=False)` on the list of key values
(for a multi-column key, instantiate `α` with the tuple type). -/
def dupKeyFlags {α : Type} [DecidableEq α] (keys : List α) : List Bool :=
  keys.map fun k => decide (1 < keys.count k)

/-! ## Scan 4.5: formatting (source lines 518–529) -/

/-- The name strings of `customer_name`. -/
def nameStrings : List String :=
  customer_name.filterMap fun v => match v with
    | .text s => some s
    | _ => none

/-- Embeds the whitespace check `name != name.str.strip()`: the names that
carry leading or trailing whitespace. -/
def whitespaceNames (names : List String) : List String :=
  names.filter fun s => decide (s ≠ s.trim)

/-- Embeds `str.lower().unique()`: the distinct case-normalised names in
first-occurrence order. -/
def lowerUnique (names : List String) : List String :=
  (names.map String.toLower).dedup

/-! ## Scan 4.6: constant and empty columns (source lines 601–621) -/

/-- The non-missing cells of a column (`dropna`). -/
def nonMissing (col : List Value) : List Value :=
  col.filter fun v => !v.isMissing

/-- Embeds `nunique(dropna=True)`: number of distinct non-missing values. -/
def nunique (col : List Value) : ℕ :=
  (nonMissing col).dedup.length

/-- Embeds `df[column].isnull().all()`. -/
def isEmptyCol (col : List Value) : Bool :=
  col.all (·.isMissing)

/-- Embeds the source test `nunique(dropna=True) == 1`. -/
def isConstantCol (col : List Value) : Bool :=
  nunique col == 1

/-- Embeds `df[column].dropna().iloc[0]`, the reported constant value. -/
def constantValue (col : List Value) : Option Value :=
  (nonMissing col).head?

/-- Embeds the `empty_columns` accumulation loop (column order preserved). -/
def emptyColumns (t : List (String × List Value)) : List String :=
  (t.filter fun c => isEmptyCol c.2).map (·.1)

/-- Embeds the `constant_columns` accumulation loop (column order preserved). -/
def constantColumns (t : List (String × List Value)) : List String :=
  (t.filter fun c => isConstantCol c.2).map (·.1)

/-! ## Scan 4.7: z-score outliers (source lines 698–722)

The source drops missing values, computes `mean` and the pandas default
sample standard deviation `std` (divisor n − 1), then flags every non-missing
cell with `abs((value - mean) / std) > 3`.  The standard deviation is a real
square root, so the flag is embedded by its squared, rational-arithmetic
equivalent `(value - mean)^2 > 9 * variance`, which agrees with the source
condition whenever the variance is positive (proved in
`isOutlier_iff_abs_zscore` below) and is false when the variance is zero,
matching the float behaviour `0.0/0.0 = NaN`, `abs(NaN) > 3 = False`. -/

/-- Mean of a list of rationals (`Series.mean`); `0` on the empty list
(division by zero), which the source never hits. -/
def listMean (l : List ℚ) : ℚ :=
  l.sum / (l.length : ℚ)

/-- Sample variance, the square of the pandas `Series.std()` (divisor n − 1). -/
def sampleVar (l : List ℚ) : ℚ :=
  (l.map fun v => (v - listMean l) ^ 2).sum / ((l.length : ℚ) - 1)

/-- The numeric values of a column after `dropna` (the numeric columns of the
script hold only numbers and missing markers, so no text is dropped here). -/
def dropnaNum (col : List Value) : List ℚ :=
  col.filterMap toNumOpt

/-- The per-value outlier test of the source, `abs(z) > 3` with
`z = (v - mean) / std`, in its squared form over `ℚ`. -/
def isOutlier (l : List ℚ) (v : ℚ) : Bool :=
  decide ((v - listMean l) ^ 2 > 9 * sampleVar l)

/-- The per-cell output of the outlier loop: `none` for a missing cell
(`pd.notna` guard), otherwise the outlier flag of its value. -/
def outlierFlags (col : List Value) : List (Option Bool) :=
  col.map fun v => (toNumOpt v).map (isOutlier (dropnaNum col))

/-- Result shape of the outlier scan.  The `notComputable` constructor is the
explicit result the specification (section 7) prescribes for n < 2 or zero
standard deviation; the source has no such branch, so `outlierScan` below
never produces it. -/
inductive OutlierScanResult where
  | notComputable : OutlierScanResult
  | flags : List (Option Bool) → OutlierScanResult
deriving DecidableEq, Repr

/-- Embeds the outlier section of the source: it unconditionally computes the
statistics and the per-cell flags; there is no n < 2 or zero-deviation guard
anywhere in the section. -/
def outlierScan (col : List Value) : OutlierScanResult :=
  .flags (outlierFlags col)

/-! ## Scan 4.8: age domain rules (source lines 765–772)

```
for idx, age in df[age].items():
    if pd.notna(age) and age != 30-as-text:   # skip NaN and the text cell
        if age < 0:        NEGATIVE (impossible!)
        elif age > 120:    EXTREMELY HIGH (suspicious!)
        elif age > 150:    IMPOSSIBLE (no human this old)
```
-/

/-- The three labels printed by the rule chain of the source. -/
inductive AgeLabel where
  | negative_impossible : AgeLabel
  | extremely_high_suspicious : AgeLabel
  | impossible_no_human : AgeLabel
deriving DecidableEq, Repr

/-- Embeds the `if / elif / elif` rule chain applied to a numeric age. -/
def ageRule (v : ℚ) : Option AgeLabel :=
  if v < 0 then some .negative_impossible
  else if v > 120 then some .extremely_high_suspicious
  else if v > 150 then some .impossible_no_human
  else none

/-- Embeds the guard `pd.notna(age) and age != 30-as-text`, negated: a cell is
skipped when it is missing or is the text cell "30" (Python equality between
any other value and that string is False, so only this text is caught). -/
def skipAge (v : Value) : Bool :=
  v.isMissing || decide (v = Value.text "30")

/-- One cell of the domain-rule loop, parameterised by the rule chain `f` (the
source instantiates `f := ageRule`).  A skipped cell yields no label without
consulting `f`; a numeric cell is labelled by `f`; any other text cell would
raise a Python `TypeError` on `age < 0`, embedded as the error case. -/
def ageCellWith (f : ℚ → Option AgeLabel) (v : Value) :
    Except String (Option AgeLabel) :=
  if skipAge v then .ok none
  else match toNumOpt v with
    | some q => .ok (f q)
    | none => .error "TypeError: comparison of str and int"

/-- The domain-rule loop over a column, with an explicit rule chain: the cells
are processed in order and the first failing cell aborts the loop, exactly as
the Python `for` loop would raise there. -/
def ageDomainScanWith (f : ℚ → Option AgeLabel) : List Value →
    Except String (List (Option AgeLabel))
  | [] => .ok []
  | v :: rest =>
    match ageCellWith f v with
    | .error e => .error e
    | .ok lab =>
      match ageDomainScanWith f rest with
      | .error e => .error e
      | .ok labs => .ok (lab :: labs)

/-- The domain-rule loop of the source (rules fixed to `ageRule`). -/
def ageDomainScan (col : List Value) : Except String (List (Option AgeLabel)) :=
  ageDomainScanWith ageRule col

/-! ## Scan 4.9: structural comparison (source lines 819–849) -/

/-- The expected schema of the source (note the misspelling `purchase_amoutn`
and the two columns `country` and `signup_date` absent from the table,
intentional in the source). -/
def expected_columns : List String :=
  ["customer_id", "customer_name", "age", "email",
   "purchase_amoutn", "country", "signup_date"]

/-- `df.columns.tolist()`. -/
def actual_columns : List String := df.map (·.1)

/-- Output of the structural scan. -/
structure StructuralResult where
  missing_columns : List String
  unexpected_columns : List String
  order_mismatch : Bool
  n_expected : ℕ
  n_actual : ℕ
deriving DecidableEq, Repr

/-- Embeds the structural section: `set(expected) - set(actual)`,
`set(actual) - set(expected)` (set contents modelled as membership-preserving
filtered lists), and the order check of source line 842,
`expected_columns[:len(actual_columns)] != actual_columns` — the EXPECTED list
truncated to the length of the ACTUAL one. -/
def structuralScan (expected actual : List String) : StructuralResult where
  missing_columns := expected.filter fun c => decide (c ∉ actual)
  unexpected_columns := actual.filter fun c => decide (c ∉ expected)
  order_mismatch := decide (expected.take actual.length ≠ actual)
  n_expected := expected.length
  n_actual := actual.length

/-! ## The full inspection run -/

/-- The aggregated report of one inspection run of the script. -/
structure Report where
  missing_counts : List (String × ℕ)
  type_kinds : List (ℕ × VKind)
  duplicate_rows : List Bool
  duplicate_ids : List Bool
  whitespace_names : List String
  lower_unique_names : List String
  empty_cols : List String
  constant_cols : List String
  outliers : OutlierScanResult
  age_labels : List (Option AgeLabel)
  structural : StructuralResult
deriving DecidableEq, Repr

/-- Embeds the straight-line main flow of the script: every scan runs
unconditionally, in source order, with no configuration validation of any
kind; the only fallible step is the age domain-rule loop (a text cell other
than "30" would raise), so the run is its `Except` composed with the pure
scans.  On the script data it returns `.ok`. -/
def runInspection : Except String Report :=
  (ageDomainScan age).map fun labels =>
    { missing_counts := missingCounts df
      type_kinds := typeEnumeration age
      duplicate_rows := dupRowFlags tableRows
      duplicate_ids := dupKeyFlags (customer_id)
      whitespace_names := whitespaceNames nameStrings
      lower_unique_names := lowerUnique nameStrings
      empty_cols := emptyColumns df
      constant_cols := constantColumns df
      outliers := outlierScan purchase_amount
      age_labels := labels
      structural := structuralScan expected_columns actual_columns }

end DataQuality

namespace DataQuality

/-! ## Shared lemmas -/

/-- Characterisation of the missing flag. -/
theorem isMissing_eq_true_iff (v : Value) : v.isMissing = true ↔ v = .missing := by
  cases v <;> simp [Value.isMissing]

/-- A list of nonnegative rationals with zero sum is pointwise zero. -/
theorem eq_zero_of_mem_of_sum_eq_zero {l : List ℚ} (hn : ∀ x ∈ l, 0 ≤ x)
    (hs : l.sum = 0) : ∀ x ∈ l, x = 0 := by
  induction l with
  | nil => simp
  | cons a t ih =>
    have ha : 0 ≤ a := hn a (by simp)
    have ht : 0 ≤ t.sum := List.sum_nonneg fun x hx => hn x (by simp [hx])
    have hsum : a + t.sum = 0 := by simpa using hs
    intro x hx
    rcases List.mem_cons.mp hx with h | h
    · subst h; linarith
    · exact ih (fun y hy => hn y (by simp [hy])) (by linarith) x h

/-- When the sample variance of a list vanishes, every member equals the mean
(for fewer than two values the variance is a division by zero, which the
rational embedding evaluates to zero, so the lemma covers those lists too). -/
theorem mem_eq_mean_of_sampleVar_eq_zero {l : List ℚ} (h : sampleVar l = 0) :
    ∀ q ∈ l, q = listMean l := by
  intro q hq
  by_cases hlen : ((l.length : ℚ) - 1) = 0
  · have h1 : (l.length : ℚ) = 1 := by linarith
    have h1n : l.length = 1 := by exact_mod_cast h1
    obtain ⟨a, rfl⟩ := List.length_eq_one.mp h1n
    have hqa : q = a := by simpa using hq
    subst hqa
    simp [listMean]
  · have hS : (l.map fun v => (v - listMean l) ^ 2).sum = 0 := by
      unfold sampleVar at h
      rcases div_eq_zero_iff.mp h with h' | h'
      · exact h'
      · exact absurd h' hlen
    have hz := eq_zero_of_mem_of_sum_eq_zero
      (l := l.map fun v => (v - listMean l) ^ 2)
      (fun x hx => by
        obtain ⟨v, _, rfl⟩ := List.mem_map.mp hx
        positivity) hS
    have hq0 : (q - listMean l) ^ 2 = 0 := hz _ (List.mem_map_of_mem _ hq)
    have := pow_eq_zero_iff (n := 2) (by norm_num) |>.mp hq0
    linarith [sub_eq_zero.mp this]

/-- The squared rational outlier test agrees with the z-score test of the
source, `abs((v - mean) / std) > 3` with `std` the real square root of the
sample variance, whenever the variance is positive. -/
theorem isOutlier_iff_abs_zscore (l : List ℚ) (v : ℚ) (h : 0 < sampleVar l) :
    isOutlier l v = true ↔
      3 < |((v : ℝ) - (listMean l : ℝ)) / Real.sqrt ((sampleVar l : ℝ))| := by
  rw [isOutlier, decide_eq_true_iff]
  have hV : (0 : ℝ) < (sampleVar l : ℝ) := by exact_mod_cast h
  have hs : 0 < Real.sqrt ((sampleVar l : ℝ)) := Real.sqrt_pos.mpr hV
  rw [abs_div, abs_of_pos hs, lt_div_iff₀ hs]
  have h9 : (3 : ℝ) * Real.sqrt ((sampleVar l : ℝ))
      = Real.sqrt (9 * (sampleVar l : ℝ)) := by
    rw [show (9 : ℝ) = 3 ^ 2 by norm_num, Real.sqrt_mul (by positivity),
      Real.sqrt_sq (by norm_num)]
  rw [h9, ← Real.sqrt_sq_eq_abs ((v : ℝ) - (listMean l : ℝ)),
    Real.sqrt_lt_sqrt_iff (by positivity)]
  constructor
  · intro hr; exact_mod_cast hr
  · intro hr; exact_mod_cast hr

/-- The non-missing purchase amounts, as dropped by `dropna`. -/
theorem purchase_dropna :
    dropnaNum purchase_amount = [50, 75.5, 1000000, 120, 85.3, 45, 95, 120] := by
  simp [dropnaNum, purchase_amount, toNumOpt]

/-- Mean of the purchase amounts: 125,073.85. -/
theorem mean_purchase :
    listMean [50, 75.5, 1000000, 120, 85.3, 45, 95, 120] = 2501477 / 20 := by
  norm_num [listMean]

/-- Sample variance of the purchase amounts (the square of the source's
`std_amount`), about 1.2498 * 10^11; its square root is about 353,529. -/
theorem var_purchase :
    sampleVar [50, 75.5, 1000000, 120, 85.3, 45, 95, 120]
      = 21871307792394 / 175 := by
  simp only [sampleVar, mean_purchase]
  norm_num

end DataQuality

namespace DataQuality

/-! ## Claim C1 — z-score outlier scan on `purchase_amount` -/

/-- C1 counterexample: the claim says the value 1,000,000 is flagged as an
outlier (z-score magnitude above 3).  It is not: with n = 8 values and the
sample standard deviation, its z-score is about 2.47.  The first conjunct
refutes the claim on the actual source values (75.5 and 85.3 among them), the
second on the rounded value list the claim quotes. -/
theorem c1_outlier_1000000_not_flagged :
    isOutlier (dropnaNum purchase_amount) 1000000 = false
    ∧ isOutlier [50, 75, 1000000, 120, 85, 45, 95, 120] 1000000 = false := by
  constructor
  · rw [purchase_dropna]
    simp only [isOutlier, mean_purchase, var_purchase, decide_eq_false_iff_not]
    norm_num
  · simp only [isOutlier, decide_eq_false_iff_not]
    norm_num [listMean, sampleVar]

/-- C1 amended: the outlier scan over `purchase_amount` flags no value at all:
each non-missing cell gets flag `false` (the two missing cells are skipped).
With n = 8 no sample z-score can exceed 7 / sqrt 8 < 3, so the threshold-3
test cannot fire on this column. -/
theorem c1_outlier_scan_flags_none :
    outlierScan purchase_amount =
      .flags [some false, some false, some false, none, some false,
              some false, some false, none, some false, some false] := by
  simp only [outlierScan, outlierFlags, purchase_dropna]
  simp only [purchase_amount, List.map_cons, List.map_nil, toNumOpt, Option.map_some',
    Option.map_none', OutlierScanResult.flags.injEq, List.cons.injEq, Option.some.injEq,
    and_true, true_and, isOutlier, decide_eq_false_iff_not, mean_purchase, var_purchase]
  norm_num

/-! ## Claim C2 — order of the age domain rules -/

/-- C2: the rule chain of the source tests `age > 120` (suspicious) before
`age > 150` (impossible), so an age of 200 is labelled suspicious, not
impossible, and the impossible-above-150 branch is unreachable for every
numeric age; only the negative-age rule behaves as the claim states. -/
theorem c2_age_rule_order_bug :
    ageRule 200 = some AgeLabel.extremely_high_suspicious
    ∧ ageRule (-5) = some AgeLabel.negative_impossible
    ∧ ∀ v : ℚ, ageRule v ≠ some AgeLabel.impossible_no_human := by
  refine ⟨by decide, by decide, ?_⟩
  intro v
  unfold ageRule
  split_ifs with h1 h2 h3
  · simp
  · simp
  · exfalso; linarith
  · simp

/-! ## Claim C4 — no configuration validation, run never aborts -/

/-- C4 counterexample: the configured structural scan references the column
`country`, which does not exist in the table, yet the inspection run completes
normally (no configuration error, full report produced). -/
theorem c4_missing_config_column_no_abort :
    "country" ∈ expected_columns
    ∧ "country" ∉ actual_columns
    ∧ runInspection.isOk = true := by
  refine ⟨by decide, by decide, by decide⟩

/-- C4 amended: the script performs no configuration validation at all; the
expected-schema list references three columns absent from the table and the
run still completes, reporting them as ordinary missing-column findings of the
structural scan. -/
theorem c4_run_completes_with_missing_config_columns :
    runInspection.isOk = true
    ∧ (structuralScan expected_columns actual_columns).missing_columns
        = ["purchase_amoutn", "country", "signup_date"] := by
  refine ⟨by decide, by decide⟩

/-! ## Claim C5 — structural scan -/

/-- C5 counterexample: the claim says the order-mismatch flag is true exactly
when the ACTUAL sequence truncated to the EXPECTED length differs from the
expected sequence.  For expected `[a, b, c]` and actual `[a, b]` that reading
demands a true flag, but the source truncates the expected list to the actual
length (`expected_columns[:len(actual_columns)] != actual_columns`), so the
flag is false. -/
theorem c5_order_mismatch_truncation_direction :
    (structuralScan ["a", "b", "c"] ["a", "b"]).order_mismatch = false
    ∧ ["a", "b"].take (["a", "b", "c"].length) ≠ ["a", "b", "c"] := by
  refine ⟨by decide, by decide⟩

/-- C5 amended: missing-columns and unexpected-columns are the two set
differences, and the order-mismatch flag is true exactly when the EXPECTED
sequence truncated to the length of the ACTUAL sequence differs element-wise
from the actual sequence; on expected `[a, b, c]` and actual `[a, c, b]` the
flag is true and both sets are empty. -/
theorem c5_structural_scan_spec :
    (∀ e a : List String,
      ((structuralScan e a).order_mismatch = true ↔ e.take a.length ≠ a)
      ∧ (∀ c, c ∈ (structuralScan e a).missing_columns ↔ c ∈ e ∧ c ∉ a)
      ∧ (∀ c, c ∈ (structuralScan e a).unexpected_columns ↔ c ∈ a ∧ c ∉ e))
    ∧ structuralScan ["a", "b", "c"] ["a", "c", "b"]
        = ⟨[], [], true, 3, 3⟩ := by
  constructor
  · intro e a
    refine ⟨?_, ?_, ?_⟩
    · simp [structuralScan]
    · intro c; simp [structuralScan, List.mem_filter]
    · intro c; simp [structuralScan, List.mem_filter]
  · decide

/-- C5 witness: the general characterisation applied to the concrete example
of the claim, yielding the true order-mismatch flag. -/
theorem c5_structural_scan_spec_witness :
    (structuralScan ["a", "b", "c"] ["a", "c", "b"]).order_mismatch = true :=
  ((c5_structural_scan_spec.1 ["a", "b", "c"] ["a", "c", "b"]).1).mpr (by decide)

/-! ## Claim C6 — type-consistency scan -/

/-- C6 counterexample: the type scan of the source enumerates every cell of
the age column, missing cells included — the missing cell at row 1 yields a
record, refuting that only non-missing cells are inspected, and the record at
row 0 is an ordinary int cell, refuting that only kind-mismatching cells are
recorded; no dominant kind is computed anywhere in the loop. -/
theorem c6_type_scan_inspects_missing_cell :
    (1, VKind.missingK) ∈ typeEnumeration age
    ∧ (0, VKind.intK) ∈ typeEnumeration age := by
  refine ⟨by decide, by decide⟩

/-- C6 amended: the type scan records, for every cell of the column (missing
ones included), its index and runtime kind; on the age column it reports the
mixed kinds below and flags nothing. -/
theorem c6_type_scan_enumerates_all_cells :
    (∀ col : List Value, (typeEnumeration col).length = col.length)
    ∧ typeEnumeration age =
        [(0, .intK), (1, .missingK), (2, .intK), (3, .intK), (4, .intK),
         (5, .textK), (6, .intK), (7, .intK), (8, .intK), (9, .intK)] := by
  refine ⟨fun col => by simp [typeEnumeration, List.enum_length], by decide⟩

end DataQuality

namespace DataQuality

/-! ## Further shared lemmas -/

/-- The missing flag is false exactly off the missing marker. -/
theorem isMissing_eq_false_iff (v : Value) : v.isMissing = false ↔ v ≠ .missing := by
  cases v <;> simp [Value.isMissing]

/-- Membership in the dropna list of a column. -/
theorem nonMissing_mem_iff (col : List Value) (v : Value) :
    v ∈ nonMissing col ↔ v ∈ col ∧ v ≠ .missing := by
  simp [nonMissing, List.mem_filter, Bool.not_eq_true', isMissing_eq_false_iff]

/-- A column is empty exactly when every cell is missing. -/
theorem isEmptyCol_iff (col : List Value) :
    isEmptyCol col = true ↔ ∀ v ∈ col, v = .missing := by
  simp [isEmptyCol, List.all_eq_true, isMissing_eq_true_iff]

/-- A column is constant exactly when some non-missing value occurs and every
non-missing cell equals it (the `nunique(dropna=True) == 1` test). -/
theorem isConstantCol_iff (col : List Value) :
    isConstantCol col = true ↔
      ∃ v, v ≠ Value.missing ∧ v ∈ col ∧ ∀ w ∈ col, w ≠ Value.missing → w = v := by
  unfold isConstantCol nunique
  rw [beq_iff_eq, List.length_eq_one]
  constructor
  · rintro ⟨a, ha⟩
    have haIn : a ∈ (nonMissing col).dedup := by rw [ha]; exact List.mem_singleton_self a
    obtain ⟨haCol, haNm⟩ := (nonMissing_mem_iff col a).mp (List.mem_dedup.mp haIn)
    refine ⟨a, haNm, haCol, ?_⟩
    intro w hw hwne
    have hwIn : w ∈ (nonMissing col).dedup :=
      List.mem_dedup.mpr ((nonMissing_mem_iff col w).mpr ⟨hw, hwne⟩)
    rw [ha] at hwIn
    simpa using hwIn
  · rintro ⟨v, hvne, hvCol, hall⟩
    have hvIn : v ∈ (nonMissing col).dedup :=
      List.mem_dedup.mpr ((nonMissing_mem_iff col v).mpr ⟨hvCol, hvne⟩)
    have hrep : (nonMissing col).dedup
        = List.replicate (nonMissing col).dedup.length v :=
      List.eq_replicate_of_mem fun b hb => by
        obtain ⟨hbCol, hbNm⟩ := (nonMissing_mem_iff col b).mp (List.mem_dedup.mp hb)
        exact hall b hbCol hbNm
    have hnd := List.nodup_dedup (nonMissing col)
    rw [hrep] at hnd
    have hlen1 : (nonMissing col).dedup.length ≤ 1 := List.nodup_replicate.mp hnd
    have hpos : 0 < (nonMissing col).dedup.length :=
      List.length_pos.mpr (List.ne_nil_of_mem hvIn)
    have hone : (nonMissing col).dedup.length = 1 := le_antisymm hlen1 hpos
    exact ⟨v, by rw [hrep, hone, List.replicate_one]⟩

/-- The purchase column has seven distinct non-missing values (120 repeats). -/
theorem nunique_purchase : nunique purchase_amount = 7 := by
  norm_num [nunique, nonMissing, purchase_amount, Value.isMissing,
    List.dedup_cons_of_mem, List.dedup_cons_of_not_mem]

/-- The purchase column is not constant. -/
theorem purchase_not_constant : isConstantCol purchase_amount = false := by
  simp [isConstantCol, nunique_purchase]

/-- Index-wise description of the duplicate-key flags. -/
theorem dupKeyFlags_get_iff {α : Type} [DecidableEq α] (keys : List α) (i : ℕ)
    (h : i < keys.length) (h2 : i < (dupKeyFlags keys).length) :
    ((dupKeyFlags keys).get ⟨i, h2⟩ = true ↔ 1 < keys.count (keys.get ⟨i, h⟩)) := by
  simp only [dupKeyFlags, List.get_eq_getElem, List.getElem_map]
  exact decide_eq_true_iff

/-- Two distinct positions holding the same key force its count above one. -/
theorem count_gt_one_of_get_eq {α : Type} [DecidableEq α] (keys : List α)
    {i j : ℕ} (hi : i < keys.length) (hj : j < keys.length)
    (hne : i ≠ j) (heq : keys.get ⟨i, hi⟩ = keys.get ⟨j, hj⟩) :
    1 < keys.count (keys.get ⟨i, hi⟩) := by
  have hdup : List.Duplicate (keys.get ⟨i, hi⟩) keys := by
    rcases Nat.lt_or_ge i j with hij | hij
    · exact List.duplicate_iff_exists_distinct_get.mpr
        ⟨⟨i, hi⟩, ⟨j, hj⟩, Fin.mk_lt_mk.mpr hij, rfl, heq⟩
    · have hji : j < i := Nat.lt_of_le_of_ne hij fun e => hne e.symm
      exact List.duplicate_iff_exists_distinct_get.mpr
        ⟨⟨j, hj⟩, ⟨i, hi⟩, Fin.mk_lt_mk.mpr hji, heq, rfl⟩
  exact List.duplicate_iff_two_le_count.mp hdup

/-- Index-wise description of the duplicate-row flags: a row is flagged
exactly when an equal row occurs at a smaller index. -/
theorem dupRowFlags_get_iff (rows : List (List Value)) (i : ℕ)
    (h : i < rows.length) (h2 : i < (dupRowFlags rows).length) :
    ((dupRowFlags rows).get ⟨i, h2⟩ = true ↔
      ∃ j, j < i ∧ ∃ hj : j < rows.length,
        rows.get ⟨j, hj⟩ = rows.get ⟨i, h⟩) := by
  have hei : i < rows.enum.length := by simpa [List.enum_length] using h
  simp only [dupRowFlags, List.get_eq_getElem, List.getElem_map, List.getElem_enum]
  rw [decide_eq_true_iff, List.mem_take_iff_getElem]
  constructor
  · rintro ⟨j, hm, hji⟩
    exact ⟨j, (lt_min_iff.mp hm).1, (lt_min_iff.mp hm).2, hji⟩
  · rintro ⟨j, hji, hjl, hgeq⟩
    exact ⟨j, lt_min_iff.mpr ⟨hji, hjl⟩, hgeq⟩

end DataQuality

namespace DataQuality

/-! ## Claim C3 — no not-computable branch in the outlier scan -/

/-- C3 counterexample: on a column of two equal values the sample standard
deviation is zero, yet the outlier section produces its ordinary per-cell
flags result, not the explicit not-computable report the claim prescribes. -/
theorem c3_zero_std_not_reported :
    sampleVar (dropnaNum [Value.int 5, Value.int 5]) = 0
    ∧ outlierScan [Value.int 5, Value.int 5] ≠ OutlierScanResult.notComputable
    ∧ outlierScan [Value.int 5, Value.int 5] = .flags [some false, some false] := by
  have hd : dropnaNum [Value.int 5, Value.int 5] = [5, 5] := by
    simp [dropnaNum, toNumOpt]
  refine ⟨?_, by simp [outlierScan], ?_⟩
  · rw [hd]; norm_num [sampleVar, listMean]
  · simp only [outlierScan, outlierFlags, hd, OutlierScanResult.flags.injEq]
    norm_num [toNumOpt, isOutlier, listMean, sampleVar, decide_eq_false_iff_not]

/-- C3 amended: the source has no n < 2 / zero-deviation guard: the scan
always returns the per-cell flags result (never the not-computable report),
and whenever the sample variance is zero no cell is flagged, so the run
completes with all flags false. -/
theorem c3_scan_never_not_computable :
    ∀ col : List Value,
      outlierScan col ≠ OutlierScanResult.notComputable
      ∧ (sampleVar (dropnaNum col) = 0 →
          ∀ o ∈ outlierFlags col, o ≠ some true) := by
  intro col
  refine ⟨by simp [outlierScan], ?_⟩
  intro hvar o ho
  obtain ⟨v, hv, rfl⟩ := List.mem_map.mp ho
  cases htn : toNumOpt v with
  | none => simp [htn]
  | some q =>
    have hq : q ∈ dropnaNum col := List.mem_filterMap.mpr ⟨v, hv, htn⟩
    have hqm : q = listMean (dropnaNum col) :=
      mem_eq_mean_of_sampleVar_eq_zero hvar q hq
    simp only [htn, Option.map_some', ne_eq, Option.some.injEq]
    simp [isOutlier, hqm, hvar]

/-- C3 witness: the amended statement applied to a concrete constant column. -/
theorem c3_scan_never_not_computable_witness :
    sampleVar (dropnaNum [Value.int 7, Value.int 7]) = 0
    ∧ ∀ o ∈ outlierFlags [Value.int 7, Value.int 7], o ≠ some true := by
  have hd : dropnaNum [Value.int 7, Value.int 7] = [7, 7] := by
    simp [dropnaNum, toNumOpt]
  have hv : sampleVar (dropnaNum [Value.int 7, Value.int 7]) = 0 := by
    rw [hd]; norm_num [sampleVar, listMean]
  exact ⟨hv, (c3_scan_never_not_computable [Value.int 7, Value.int 7]).2 hv⟩

/-! ## Claim C7 — duplicate-key scan -/

/-- A key whose count exceeds one occurs at a second, different position. -/
theorem exists_other_get_of_count_gt_one {α : Type} [DecidableEq α]
    (keys : List α) {i : ℕ} (hi : i < keys.length)
    (hc : 1 < keys.count (keys.get ⟨i, hi⟩)) :
    ∃ j, ∃ hj : j < keys.length, j ≠ i ∧
      keys.get ⟨j, hj⟩ = keys.get ⟨i, hi⟩ := by
  have hdup : List.Duplicate (keys.get ⟨i, hi⟩) keys :=
    List.duplicate_iff_two_le_count.mpr hc
  obtain ⟨n, m, hnm, hxn, hxm⟩ := List.duplicate_iff_exists_distinct_get.mp hdup
  by_cases hni : (n : ℕ) = i
  · refine ⟨m, m.isLt, fun hmi => ?_, hxm.symm⟩
    have hlt := Fin.lt_def.mp hnm
    omega
  · exact ⟨n, n.isLt, hni, hxn.symm⟩

/-- C7: the duplicate-key scan flags a row exactly when some other row holds
the same key tuple (so every row of a group with more than one row is marked,
the first occurrence included; in particular any two distinct rows sharing a
key are both flagged), and on the key values of the specification example
exactly the rows at indices 3 and 4 are flagged. -/
theorem c7_duplicate_key_scan_marks_all :
    (∀ (keys : List (List Value)) (i : ℕ) (h : i < keys.length)
        (h2 : i < (dupKeyFlags keys).length),
        ((dupKeyFlags keys).get ⟨i, h2⟩ = true ↔
          ∃ j, ∃ hj : j < keys.length, j ≠ i ∧
            keys.get ⟨j, hj⟩ = keys.get ⟨i, h⟩))
    ∧ (∀ (keys : List (List Value)) (i j : ℕ) (hi : i < keys.length)
        (hj : j < keys.length) (h2 : i < (dupKeyFlags keys).length),
        i ≠ j → keys.get ⟨i, hi⟩ = keys.get ⟨j, hj⟩ →
          (dupKeyFlags keys).get ⟨i, h2⟩ = true)
    ∧ dupKeyFlags ([1001, 1002, 1003, 1005, 1005] : List ℤ)
        = [false, false, false, true, true] := by
  refine ⟨?_, ?_, by decide⟩
  · intro keys i h h2
    rw [dupKeyFlags_get_iff keys i h h2]
    constructor
    · exact fun hc => exists_other_get_of_count_gt_one keys h hc
    · rintro ⟨j, hj, hne, heq⟩
      exact count_gt_one_of_get_eq keys h hj (fun e => hne (e.symm)) heq.symm
  · intro keys i j hi hj h2 hne heq
    exact (dupKeyFlags_get_iff keys i hi h2).mpr
      (count_gt_one_of_get_eq keys hi hj hne heq)

/-- C7 witness: the scan applied to a two-row group marks the first
occurrence. -/
theorem c7_duplicate_key_scan_marks_all_witness :
    (dupKeyFlags [[Value.int 1005], [Value.int 1005]]).get ⟨0, by decide⟩
      = true :=
  (c7_duplicate_key_scan_marks_all.1 [[Value.int 1005], [Value.int 1005]]
    0 (by decide) (by decide)).mpr ⟨1, by decide, by decide, by decide⟩

/-! ## Claim C8 — duplicate-row scan -/

/-- C8: the duplicate-row scan flags a row exactly when an identical row
(missing markers compared by equality) occurs at a smaller index, so the first
occurrence is never flagged; on rows [A, B, A, C, A] exactly the rows at
indices 2 and 4 are flagged and the duplicate count is 2. -/
theorem c8_duplicate_row_scan_keep_first :
    (∀ (rows : List (List Value)) (i : ℕ) (h : i < rows.length)
        (h2 : i < (dupRowFlags rows).length),
        ((dupRowFlags rows).get ⟨i, h2⟩ = true ↔
          ∃ j, j < i ∧ ∃ hj : j < rows.length,
            rows.get ⟨j, hj⟩ = rows.get ⟨i, h⟩))
    ∧ dupRowFlags
        [[Value.int 1, Value.missing], [Value.int 2, Value.missing],
         [Value.int 1, Value.missing], [Value.int 3, Value.text "x"],
         [Value.int 1, Value.missing]]
        = [false, false, true, false, true]
    ∧ (dupRowFlags
        [[Value.int 1, Value.missing], [Value.int 2, Value.missing],
         [Value.int 1, Value.missing], [Value.int 3, Value.text "x"],
         [Value.int 1, Value.missing]]).count true = 2 := by
  exact ⟨fun rows i h h2 => dupRowFlags_get_iff rows i h h2, by decide, by decide⟩

/-- C8 witness: the characterisation applied to a concrete three-row table
whose third row repeats the first. -/
theorem c8_duplicate_row_scan_keep_first_witness :
    (dupRowFlags [[Value.int 1], [Value.int 2], [Value.int 1]]).get
      ⟨2, by decide⟩ = true :=
  (c8_duplicate_row_scan_keep_first.1 [[Value.int 1], [Value.int 2], [Value.int 1]]
    2 (by decide) (by decide)).mpr ⟨0, by decide, by decide, by decide⟩

end DataQuality

namespace DataQuality

/-! ## Claim C9 — constant and empty columns -/

/-- C9: a column is flagged empty exactly when all its values are missing and
constant exactly when it has exactly one distinct non-missing value (the
constant value, the first non-missing cell, being reported); no column is
both; on the table, `region` is the only empty column (empty, not constant)
and `status` the only constant one, with value `active`; a column with one
repeated non-missing value plus missing cells is constant with that value. -/
theorem c9_constant_empty_scan :
    (∀ col : List Value, isEmptyCol col = true ↔ ∀ v ∈ col, v = Value.missing)
    ∧ (∀ col : List Value, isConstantCol col = true ↔
        ∃ v, v ≠ Value.missing ∧ v ∈ col ∧
          ∀ w ∈ col, w ≠ Value.missing → w = v)
    ∧ (∀ col : List Value, ¬(isEmptyCol col = true ∧ isConstantCol col = true))
    ∧ emptyColumns df = ["region"]
    ∧ constantColumns df = ["status"]
    ∧ isEmptyCol region = true ∧ isConstantCol region = false
    ∧ isConstantCol [Value.int 7, Value.missing, Value.int 7] = true
    ∧ constantValue [Value.int 7, Value.missing, Value.int 7] = some (Value.int 7)
    ∧ constantValue status = some (Value.text "active") := by
  have hdisj : ∀ col : List Value,
      ¬(isEmptyCol col = true ∧ isConstantCol col = true) := by
    rintro col ⟨he, hc⟩
    obtain ⟨v, hvne, hvCol, -⟩ := (isConstantCol_iff col).mp hc
    exact hvne ((isEmptyCol_iff col).mp he v hvCol)
  have hcc : constantColumns df = ["status"] := by
    have h1 : isConstantCol customer_id = false := by decide
    have h2 : isConstantCol customer_name = false := by decide
    have h3 : isConstantCol age = false := by decide
    have h4 : isConstantCol email = false := by decide
    have h6 : isConstantCol region = false := by decide
    have h7 : isConstantCol status = true := by decide
    simp [constantColumns, df, List.filter_cons, h1, h2, h3, h4,
      purchase_not_constant, h6, h7]
  refine ⟨isEmptyCol_iff, isConstantCol_iff, hdisj, by decide, hcc,
    by decide, by decide, by decide, by decide, by decide⟩

/-- C9 witness: the constant-column characterisation applied to the concrete
mixed column of the claim (one repeated value plus a missing cell). -/
theorem c9_constant_empty_scan_witness :
    ∃ v, v ≠ Value.missing ∧ v ∈ [Value.int 7, Value.missing, Value.int 7] ∧
      ∀ w ∈ [Value.int 7, Value.missing, Value.int 7],
        w ≠ Value.missing → w = v :=
  (c9_constant_empty_scan.2.1 [Value.int 7, Value.missing, Value.int 7]).mp
    (by decide)

/-! ## Claim C10 — the skip guard of the age domain-rule loop -/

/-- C10: the domain-rule loop skips every cell that is missing or is the text
cell "30" without consulting the rule chain (the result is `ok none` for any
rule chain whatsoever), and on the mixed-kind age column the loop completes
without error, labelling only the numeric cells -5 (negative, impossible) and
150 (above 120, suspicious); the text cell receives no label at all. -/
theorem c10_skip_guard_text_and_missing :
    (∀ (f : ℚ → Option AgeLabel) (v : Value),
      skipAge v = true → ageCellWith f v = .ok none)
    ∧ ageDomainScan age
        = .ok [none, none, none, some .negative_impossible, none, none, none,
               some .extremely_high_suspicious, none, none]
    ∧ skipAge Value.missing = true ∧ skipAge (Value.text "30") = true := by
  refine ⟨?_, by rfl, by decide, by decide⟩
  intro f v h
  simp [ageCellWith, h]

/-- C10 witness: the skip rule applied to the missing marker with the concrete
rule chain of the source. -/
theorem c10_skip_guard_text_and_missing_witness :
    ageCellWith ageRule Value.missing = .ok none :=
  c10_skip_guard_text_and_missing.1 ageRule Value.missing (by decide)

end DataQuality
